import Mathlib

/-
Shallow embedding of the real-time voice session engine of UserBot-Hub,
translated from src/frontend/src/VoiceChat.jsx.

The component's React state hooks and refs become the fields of `VCState`;
each event handler of the source (handleWebSocketMessage, speakText,
startRecording, stopRecording, sendTextMessage, endSession, startSession,
the mute-toggle button, the Start Mission button) becomes a pure function
on `VCState`.  Platform primitives (WebSocket, MediaRecorder,
MediaStream, speechSynthesis) are modelled with explicit state:

  * `Channel` models a browser WebSocket: `send` on an OPEN channel
    appends to `sent`; `send` on a CLOSING/CLOSED channel is discarded
    without an error (WHATWG behaviour); `send` on a CONNECTING channel
    throws InvalidStateError, modelled with `Except`.  `close` moves an
    open or connecting channel to CLOSING; whether the close handshake
    then completes (CLOSED) or hangs (stays CLOSING) is an environment
    choice modelled by `channelSettle`.
  * `MediaRecorder.stop` fires its `onstop` callback asynchronously, on a
    later event-loop turn; the captured-chunk flush performed inside
    `onstop` (VoiceChat.jsx lines 348-366) is therefore modelled as a
    pending callback (`pendingFlushes`) run by `runFlushes` after the
    synchronous handler that called `stop` has finished.
  * Ghost fields record externally observable effects that the React
    state does not store: `speakCalls` (each invocation of `speakText`),
    `micAcquisitions` (each `getUserMedia` request), `liveStreamIds`
    (acquired streams whose tracks have not been stopped),
    `issuedRequests` (each POST /api/voice/session payload).
-/

namespace VoiceChat

/-- The `view` state hook: `useState('setup')`, values setup/active/summary. -/
inductive View
  | setup
  | active
  | summary
deriving DecidableEq

/-- WebSocket readyState values; `opened` stands for the OPEN constant,
which is a reserved word in Lean. -/
inductive ReadyState
  | connecting
  | opened
  | closing
  | closed
deriving DecidableEq

/-- Outbound wire messages built in VoiceChat.jsx: the audio chunk flushed
in the recorder's onstop callback, the typed text message, and the
termination signal sent by endSession ({ type: end }). -/
inductive OutMsg
  | audio (data : String) (mime_type : String)
  | textOut (data : String)
  | endSignal
deriving DecidableEq

/-- A browser WebSocket as seen by the client: its readyState and the list
of messages actually accepted for transmission. -/
structure Channel where
  readyState : ReadyState
  sent : List OutMsg
deriving DecidableEq

/-- WebSocket.send: OPEN appends to the transmitted list; CONNECTING
throws InvalidStateError; CLOSING/CLOSED discards the data silently. -/
def wsSendE (ch : Channel) (m : OutMsg) : Except String Channel :=
  match ch.readyState with
  | ReadyState.connecting => Except.error "InvalidStateError"
  | ReadyState.opened => Except.ok { ch with sent := ch.sent ++ [m] }
  | _ => Except.ok ch

/-- WebSocket.close: moves a connecting or open channel to CLOSING;
a no-op on a channel already closing or closed. -/
def wsCloseCall (ch : Channel) : Channel :=
  match ch.readyState with
  | ReadyState.connecting => { ch with readyState := ReadyState.closing }
  | ReadyState.opened => { ch with readyState := ReadyState.closing }
  | _ => ch

/-- A microphone stream handed out by getUserMedia, identified by the
order in which it was acquired. -/
structure MediaStream where
  id : Nat
deriving DecidableEq

/-- MediaRecorder.state: inactive or recording. -/
inductive RecState
  | inactive
  | recording
deriving DecidableEq

/-- A MediaRecorder together with the chunks accumulated by its
ondataavailable handler. -/
structure MediaRecorder where
  state : RecState
  chunks : List String
deriving DecidableEq

/-- Transcript entry roles. -/
inductive Role
  | user
  | assistant
deriving DecidableEq

/-- One transcript entry as pushed by the source: { role, text, isTemp }.
`text` is optional because the source copies possibly-undefined message
fields into it. -/
structure TranscriptEntry where
  role : Role
  text : Option String
  isTemp : Bool
deriving DecidableEq

/-- An entry of the LANGUAGES list (only the fields the handlers read). -/
structure Language where
  code : String
  name : String
deriving DecidableEq

/-- A mission record (only the field the session-creation payload reads). -/
structure Mission where
  id : String
deriving DecidableEq

/-- The JSON body of the POST /api/voice/session request built by
startSession (VoiceChat.jsx lines 221-226). -/
structure SessionRequest where
  mission_id : Option String
  language : String
  from_language : String
  mode : String
deriving DecidableEq

/-- An inbound channel message as dispatched by handleWebSocketMessage:
an open-ended `type` string plus the optional fields the handler reads. -/
structure RawMsg where
  type : String
  session_id : Option String := none
  text : Option String := none
  data : Option String := none
  is_final : Option Bool := none
  message : Option String := none
deriving DecidableEq

/-- The full client state of the VoiceChat component: one field per React
state hook or ref, plus ghost fields recording externally observable
effects (see the header comment). -/
structure VCState where
  view : View := View.setup
  selectedMission : Option Mission := none
  selectedLanguage : Language := { code := "en", name := "English" }
  mode : String := "teacher"
  sessionId : Option String := none
  isConnected : Bool := false
  isRecording : Bool := false
  isMuted : Bool := false
  transcripts : List TranscriptEntry := []
  error : Option String := none
  textInput : String := ""
  ws : Option Channel := none
  mediaRecorder : Option MediaRecorder := none
  stream : Option MediaStream := none
  synthSpeaking : Bool := false
  pendingFlushes : List (List String) := []
  speakCalls : List String := []
  liveStreamIds : List Nat := []
  nextStreamId : Nat := 0
  micAcquisitions : Nat := 0
  issuedRequests : List SessionRequest := []
deriving DecidableEq

/-- JavaScript string truthiness: undefined and the empty string are falsy. -/
def truthy : Option String → Bool
  | none => false
  | some s => !(s == "")

/-- The JavaScript expression `a || b` on two optional strings. -/
def jsOr (a b : Option String) : Option String :=
  if truthy a then a else b

/-- JavaScript String.prototype.trim: strips leading and trailing
whitespace (written over the character list so that it evaluates inside
the kernel). -/
def jsTrim (s : String) : String :=
  String.mk (((s.data.dropWhile Char.isWhitespace).reverse.dropWhile Char.isWhitespace).reverse)

/-- Abstract stand-in for the base64 snapshot of the Blob assembled from
the recorder's chunks; the claims depend only on whether an audio message
is enqueued, never on the encoding itself. -/
def blobB64 (chunks : List String) : String :=
  String.join chunks

/-- speakText (VoiceChat.jsx lines 312-327): records the invocation, then
returns immediately when muted; otherwise cancels any ongoing utterance
and starts speaking the new text (synthRef always holds
window.speechSynthesis in the browser). -/
def speakText (s : VCState) (text : String) : VCState :=
  let s1 := { s with speakCalls := s.speakCalls ++ [text] }
  if s1.isMuted then s1
  else { s1 with synthSpeaking := true }

/-- The mute button of the active view (VoiceChat.jsx line 547):
onClick={() => setIsMuted(!isMuted)}. -/
def muteToggle (s : VCState) : VCState :=
  { s with isMuted := !s.isMuted }

/-- startRecording (VoiceChat.jsx lines 330-374).  `granted` is the
outcome of the getUserMedia permission request: on denial the catch
block sets the error message and nothing else changes; on success a new
stream is acquired, a fresh AudioContext and MediaRecorder are created
(replacing the previous refs), recording starts and isRecording is set.
The function performs no check that recording is already active. -/
def startRecording (granted : Bool) (s : VCState) : VCState :=
  if granted then
    let sid := s.nextStreamId
    { s with
        stream := some { id := sid }
        liveStreamIds := s.liveStreamIds ++ [sid]
        nextStreamId := sid + 1
        micAcquisitions := s.micAcquisitions + 1
        mediaRecorder := some { state := RecState.recording, chunks := [] }
        isRecording := true }
  else
    { s with error := some "Microphone access denied" }

/-- stopRecording (VoiceChat.jsx lines 377-385): stops the recorder when
its state is recording (queueing the asynchronous onstop flush of its
accumulated chunks), stops every track of the current stream if one is
held, and clears isRecording. -/
def stopRecording (s : VCState) : VCState :=
  let s1 :=
    match s.mediaRecorder with
    | some r =>
        if r.state = RecState.recording then
          { s with
              mediaRecorder := some { r with state := RecState.inactive }
              pendingFlushes := s.pendingFlushes ++ [r.chunks] }
        else s
    | none => s
  let s2 :=
    match s1.stream with
    | some st => { s1 with liveStreamIds := s1.liveStreamIds.filter (fun i => i != st.id) }
    | none => s1
  { s2 with isRecording := false }

/-- The recorder onstop callback (VoiceChat.jsx lines 348-366) for one
queued flush: assembles the blob, base64-encodes it, and sends it as an
audio message only when the channel exists and its readyState is OPEN;
otherwise the chunk is discarded without any error being reported. -/
def flushOne (s : VCState) (chunks : List String) : VCState :=
  match s.ws with
  | some ch =>
      if ch.readyState = ReadyState.opened then
        { s with ws := some { ch with sent := ch.sent ++ [OutMsg.audio (blobB64 chunks) "audio/webm"] } }
      else s
  | none => s

/-- Runs every pending onstop flush, in queueing order, on later
event-loop turns. -/
def runFlushes (s : VCState) : VCState :=
  List.foldl flushOne { s with pendingFlushes := [] } s.pendingFlushes

/-- sendTextMessage (VoiceChat.jsx lines 390-400): returns silently when
the trimmed input is empty or no channel ref exists; otherwise sends the
text on the channel (which may throw when the channel is connecting, and
silently discards when it is closing or closed), then appends a user
transcript entry and clears the input.  The second component is the
uncaught exception, if any. -/
def sendTextMessage (s : VCState) : VCState × Option String :=
  if jsTrim s.textInput = "" then (s, none)
  else
    match s.ws with
    | none => (s, none)
    | some ch =>
        match wsSendE ch (OutMsg.textOut s.textInput) with
        | Except.error e => (s, some e)
        | Except.ok ch2 =>
            ({ s with
                ws := some ch2
                transcripts := s.transcripts ++ [{ role := Role.user, text := some s.textInput, isTemp := false }]
                textInput := "" }, none)

/-- The successive statements of endSession (VoiceChat.jsx lines 403-413),
in source order. -/
inductive EndStep
  | stopCapture
  | cancelPlayback
  | sendEnd
  | closeChannel
  | setSummary
deriving DecidableEq

/-- Executes one statement of endSession.  sendEnd and closeChannel are
both guarded by the source's `if (wsRef.current)`; sending may throw when
the channel is still connecting. -/
def execEndStepE (s : VCState) : EndStep → Except String VCState
  | EndStep.stopCapture => Except.ok (stopRecording s)
  | EndStep.cancelPlayback => Except.ok { s with synthSpeaking := false }
  | EndStep.sendEnd =>
      match s.ws with
      | some ch =>
          match wsSendE ch OutMsg.endSignal with
          | Except.error e => Except.error e
          | Except.ok ch2 => Except.ok { s with ws := some ch2 }
      | none => Except.ok s
  | EndStep.closeChannel =>
      match s.ws with
      | some ch => Except.ok { s with ws := some (wsCloseCall ch) }
      | none => Except.ok s
  | EndStep.setSummary => Except.ok { s with view := View.summary }

/-- Runs a list of endSession statements in order; an uncaught exception
leaves the effects of the earlier statements in place and aborts the
rest, exactly as a thrown JavaScript exception would. -/
def runEndSteps : VCState → List EndStep → VCState × Option String
  | s, [] => (s, none)
  | s, step :: rest =>
      match execEndStepE s step with
      | Except.ok s2 => runEndSteps s2 rest
      | Except.error e => (s, some e)

/-- The statement order of endSession: stopRecording();
synthRef.current?.cancel(); if (wsRef.current) { send({type: end});
close(); } setView('summary'). -/
def endSessionSteps : List EndStep :=
  [EndStep.stopCapture, EndStep.cancelPlayback, EndStep.sendEnd,
   EndStep.closeChannel, EndStep.setSummary]

/-- endSession (VoiceChat.jsx lines 403-413), returning the resulting
state together with the uncaught exception, if any. -/
def endSession (s : VCState) : VCState × Option String :=
  runEndSteps s endSessionSteps

/-- handleWebSocketMessage (VoiceChat.jsx lines 268-309): the switch on
msg.type, written as the equivalent chain of string comparisons.  A type
matching no case falls through the switch and leaves the state
unchanged. -/
def handleWebSocketMessage (s : VCState) (msg : RawMsg) : VCState :=
  if msg.type = "connected" then s
  else if msg.type = "input_transcript" then
    if msg.is_final.getD false then
      { s with transcripts := s.transcripts ++ [{ role := Role.user, text := msg.text, isTemp := false }] }
    else s
  else if msg.type = "output_transcript" ∨ msg.type = "text" then
    match jsOr msg.text msg.data with
    | some t =>
        if t = "" then s
        else
          speakText
            { s with transcripts := s.transcripts ++ [{ role := Role.assistant, text := some t, isTemp := false }] }
            t
    | none => s
  else if msg.type = "turn_complete" then s
  else if msg.type = "error" then { s with error := msg.message }
  else if msg.type = "session_ended" then { s with view := View.summary }
  else s

/-- The outcome of the POST /api/voice/session fetch issued by
startSession: a successful response carrying a session id, a non-ok HTTP
response, or a rejected fetch carrying an error message. -/
inductive CreateOutcome
  | ok (session_id : String)
  | httpError
  | networkError (msg : String)
deriving DecidableEq

/-- The request payload built by startSession (VoiceChat.jsx lines
221-226) from the current selections. -/
def sessionRequest (s : VCState) : SessionRequest :=
  { mission_id := s.selectedMission.map Mission.id
    language := s.selectedLanguage.name
    from_language := "English"
    mode := s.mode }

/-- startSession (VoiceChat.jsx lines 213-265): clears the error, issues
the session-creation request, and on success stores the session id and
opens the WebSocket (initially connecting); a non-ok response throws
"Failed to create session" and a rejected fetch throws its own message,
both caught by the surrounding catch which stores the message in the
error state. -/
def startSession (outcome : CreateOutcome) (s : VCState) : VCState :=
  let s1 := { s with error := none }
  let s2 := { s1 with issuedRequests := s1.issuedRequests ++ [sessionRequest s1] }
  match outcome with
  | CreateOutcome.ok sid =>
      { s2 with sessionId := some sid, ws := some { readyState := ReadyState.connecting, sent := [] } }
  | CreateOutcome.httpError => { s2 with error := some "Failed to create session" }
  | CreateOutcome.networkError m => { s2 with error := some m }

/-- The Start Mission button (VoiceChat.jsx lines 517-524):
onClick={startSession} with disabled={!selectedMission}, so a click runs
startSession only when a mission is selected and does nothing at all
otherwise. -/
def startMissionClick (outcome : CreateOutcome) (s : VCState) : VCState :=
  if s.selectedMission.isNone then s
  else startSession outcome s

/-- Whether the close handshake of a closing channel completes; the
client state cannot observe the difference beyond the final readyState. -/
def channelSettle (completes : Bool) (s : VCState) : VCState :=
  match s.ws with
  | some ch =>
      if completes ∧ ch.readyState = ReadyState.closing then
        { s with ws := some { ch with readyState := ReadyState.closed } }
      else s
  | none => s

/-- The microphone is released: not recording, no recorder in the
recording state, and the tracks of the held stream (if any) stopped. -/
def captureReleased (s : VCState) : Bool :=
  !s.isRecording &&
  (match s.mediaRecorder with
   | some r => r.state == RecState.inactive
   | none => true) &&
  (match s.stream with
   | some st => !(s.liveStreamIds.contains st.id)
   | none => true)

/-- The channel, if one exists, is not OPEN. -/
def channelNotOpen (s : VCState) : Bool :=
  match s.ws with
  | some ch => ch.readyState != ReadyState.opened
  | none => true

/-- The channel, if one exists, is not still CONNECTING. -/
def channelNotConnecting (s : VCState) : Bool :=
  match s.ws with
  | some ch => ch.readyState != ReadyState.connecting
  | none => true

/-- The list of messages accepted for transmission on the channel. -/
def wsSentList (s : VCState) : List OutMsg :=
  match s.ws with
  | some ch => ch.sent
  | none => []

/-- The message types enumerated by the handleWebSocketMessage switch. -/
def knownType (t : String) : Bool :=
  t == "connected" || t == "input_transcript" || t == "output_transcript" ||
  t == "text" || t == "turn_complete" || t == "error" || t == "session_ended"

/-- An input_transcript message carrying the given text and finality. -/
def inputTranscriptMsg (t : String) (b : Bool) : RawMsg :=
  { type := "input_transcript", text := some t, is_final := some b }

/-- A neutral base state used to build the concrete states of the
witnesses and counterexamples. -/
def s0 : VCState := {}

/-- A state in which an assistant line has just arrived while a mission
session is active. -/
def s10 : VCState := { s0 with view := View.active }

/-- A concrete state with a capture session already active, holding
stream 0 with its tracks live. -/
def s7 : VCState :=
  { s0 with
      view := View.active
      isRecording := true
      stream := some { id := 0 }
      liveStreamIds := [0]
      nextStreamId := 1
      micAcquisitions := 1
      mediaRecorder := some { state := RecState.recording, chunks := [] } }

/-- A concrete state in which capture is active (recorder recording,
stream 0 live), speech playback is in progress, and the channel is
open. -/
def s1c : VCState :=
  { s0 with
      view := View.active
      isRecording := true
      mediaRecorder := some { state := RecState.recording, chunks := ["q"] }
      stream := some { id := 0 }
      liveStreamIds := [0]
      nextStreamId := 1
      micAcquisitions := 1
      synthSpeaking := true
      ws := some { readyState := ReadyState.opened, sent := [] } }

/-- A concrete state whose channel has already closed, with one captured
audio chunk waiting in the onstop flush and a typed message in the input
box. -/
def s5 : VCState :=
  { s0 with
      view := View.active
      ws := some { readyState := ReadyState.closed, sent := [] }
      pendingFlushes := [["chunkdata"]]
      textInput := "hello" }

/-- A concrete setup state with Spanish, teacher mode, and mission m1
selected. -/
def s9 : VCState :=
  { s0 with
      selectedMission := some { id := "m1" }
      selectedLanguage := { code := "es", name := "Spanish" }
      mode := "teacher" }

/-- A concrete active state: recording in progress, speech playing,
channel open. -/
def s2w : VCState :=
  { s0 with
      view := View.active
      isRecording := true
      synthSpeaking := true
      mediaRecorder := some { state := RecState.recording, chunks := ["a"] }
      stream := some { id := 0 }
      liveStreamIds := [0]
      nextStreamId := 1
      micAcquisitions := 1
      ws := some { readyState := ReadyState.opened, sent := [] } }

/-! Helper lemmas shared by several developments below. -/

/-- A non-final input_transcript event leaves the state unchanged: the
handler copies the transcript array and pushes nothing. -/
theorem handle_input_nonfinal (s : VCState) (x : String) :
    handleWebSocketMessage s (inputTranscriptMsg x false) = s := by
  simp [handleWebSocketMessage, inputTranscriptMsg]

/-- The projection of speakText on the transcript: speaking never touches
the transcript. -/
theorem speakText_transcripts (s : VCState) (t : String) :
    (speakText s t).transcripts = s.transcripts := by
  cases h : s.isMuted <;> simp [speakText, h]

/-- speakText records exactly one invocation. -/
theorem speakText_speakCalls (s : VCState) (t : String) :
    (speakText s t).speakCalls = s.speakCalls ++ [t] := by
  cases h : s.isMuted <;> simp [speakText, h]

/-- When the channel is not OPEN, an onstop flush discards its chunk and
changes nothing. -/
theorem flushOne_not_open (s : VCState) (c : List String)
    (h : channelNotOpen s = true) : flushOne s c = s := by
  unfold channelNotOpen at h
  unfold flushOne
  cases hws : s.ws with
  | none => rfl
  | some ch =>
      rw [hws] at h
      simp only [bne_iff_ne] at h
      simp [h]

/-- Folding flushes over a channel that is not OPEN is the identity. -/
theorem foldl_flushOne_fixed (l : List (List String)) (s : VCState)
    (h : channelNotOpen s = true) : List.foldl flushOne s l = s := by
  induction l with
  | nil => rfl
  | cons c cs ih => rw [List.foldl_cons, flushOne_not_open s c h]; exact ih

/-- Running every pending flush on a channel that is not OPEN only clears
the pending queue; nothing reaches the channel. -/
theorem runFlushes_not_open (s : VCState) (h : channelNotOpen s = true) :
    runFlushes s = { s with pendingFlushes := [] } := by
  unfold runFlushes
  exact foldl_flushOne_fixed s.pendingFlushes _ h

/-- Filtering an id out of the live-stream list removes it: the stopped
stream's tracks are no longer live. -/
theorem contains_filter_bne (ls : List Nat) (x : Nat) :
    (ls.filter (fun i => i != x)).contains x = false := by
  induction ls with
  | nil => rfl
  | cons a as ih =>
      by_cases h : a = x
      · simp [List.filter_cons, h, ih]
      · have h2 : ¬x = a := fun hx => h hx.symm
        simp [List.filter_cons, h, ih, List.contains_cons, h2]

/-- The close-handshake outcome can only change the channel's readyState;
every other component of the client state is untouched. -/
theorem channelSettle_preserves (b : Bool) (t : VCState) :
    (channelSettle b t).isRecording = t.isRecording
    ∧ (channelSettle b t).synthSpeaking = t.synthSpeaking
    ∧ (channelSettle b t).view = t.view
    ∧ captureReleased (channelSettle b t) = captureReleased t := by
  unfold channelSettle
  cases t.ws with
  | none => exact ⟨rfl, rfl, rfl, rfl⟩
  | some ch =>
      dsimp only
      split <;> exact ⟨rfl, rfl, rfl, rfl⟩

/-- Folding the handler over any list of non-final input_transcript
events is the identity. -/
theorem foldl_handle_nonfinal (l : List String) (s : VCState) :
    List.foldl handleWebSocketMessage s (l.map (fun x => inputTranscriptMsg x false)) = s := by
  induction l generalizing s with
  | nil => rfl
  | cons a as ih =>
      rw [List.map_cons, List.foldl_cons, handle_input_nonfinal]
      exact ih s

/-- Claim C4: for every sequence of inbound input_transcript events made
of any number of non-final events followed by exactly one final event,
exactly one user transcript entry is appended, carrying the final
event's text; non-final events never append a persisted entry. -/
theorem inputTranscript_final_appends_once (s : VCState) (nonfinals : List String)
    (finalText : String) :
    List.foldl handleWebSocketMessage s (nonfinals.map (fun x => inputTranscriptMsg x false)) = s
    ∧ (List.foldl handleWebSocketMessage s
        (nonfinals.map (fun x => inputTranscriptMsg x false) ++ [inputTranscriptMsg finalText true])).transcripts
      = s.transcripts ++ [{ role := Role.user, text := some finalText, isTemp := false }] := by
  refine ⟨foldl_handle_nonfinal nonfinals s, ?_⟩
  rw [List.foldl_append, foldl_handle_nonfinal]
  simp [handleWebSocketMessage, inputTranscriptMsg]

/-- Claim C10: an inbound assistant message (type output_transcript, or
inbound type text) whose text and data fields are both absent or empty
leaves the state unchanged and triggers no playback; when either field
holds a non-empty string, exactly one assistant entry carrying that
string is appended and playback of it is invoked exactly once. -/
theorem assistant_message_append_and_speak (s : VCState) (t d : Option String) :
    (truthy t = false → truthy d = false →
      handleWebSocketMessage s { type := "output_transcript", text := t, data := d } = s
      ∧ handleWebSocketMessage s { type := "text", text := t, data := d } = s)
    ∧ (∀ str : String, jsOr t d = some str → str ≠ "" →
      (handleWebSocketMessage s { type := "output_transcript", text := t, data := d }).transcripts
        = s.transcripts ++ [{ role := Role.assistant, text := some str, isTemp := false }]
      ∧ (handleWebSocketMessage s { type := "output_transcript", text := t, data := d }).speakCalls
        = s.speakCalls ++ [str]
      ∧ (handleWebSocketMessage s { type := "text", text := t, data := d }).transcripts
        = s.transcripts ++ [{ role := Role.assistant, text := some str, isTemp := false }]
      ∧ (handleWebSocketMessage s { type := "text", text := t, data := d }).speakCalls
        = s.speakCalls ++ [str]) := by
  constructor
  · intro h1 h2
    have hjs : jsOr t d = d := by simp [jsOr, h1]
    cases d with
    | none => constructor <;> simp [handleWebSocketMessage, hjs]
    | some v =>
        have hv : v = "" := by
          simpa [truthy] using h2
        subst hv
        constructor <;> simp [handleWebSocketMessage, hjs]
  · intro str hstr hne
    refine ⟨?_, ?_, ?_, ?_⟩ <;>
      simp [handleWebSocketMessage, hstr, hne, speakText_transcripts, speakText_speakCalls]

/-- Witness for claim C10 at concrete inputs: absent fields append
nothing, and a non-empty data field appends one assistant entry and
invokes playback once. -/
theorem assistant_message_append_and_speak_witness :
    handleWebSocketMessage s10 { type := "output_transcript" } = s10
    ∧ (handleWebSocketMessage s10 { type := "text", data := some "Hallo" }).transcripts
        = [{ role := Role.assistant, text := some "Hallo", isTemp := false }]
    ∧ (handleWebSocketMessage s10 { type := "text", data := some "Hallo" }).speakCalls
        = ["Hallo"] := by
  refine ⟨((assistant_message_append_and_speak s10 none none).1 rfl rfl).1, ?_, ?_⟩
  · have h := ((assistant_message_append_and_speak s10 none (some "Hallo")).2 "Hallo"
      (by decide) (by decide)).2.2.1
    simpa [s10, s0] using h
  · have h := ((assistant_message_append_and_speak s10 none (some "Hallo")).2 "Hallo"
      (by decide) (by decide)).2.2.2
    simpa [s10, s0] using h

/-- Counterexample to claim C8 as stated: a message of unrecognized type
"mystery" is silently ignored — the handler returns the state unchanged
and, in particular, surfaces no protocol error (the error field stays
none), contradicting the claim that such messages are reported rather
than silently ignored. -/
theorem unknownType_silently_ignored_cx :
    handleWebSocketMessage s0 { type := "mystery" } = s0
    ∧ (handleWebSocketMessage s0 { type := "mystery" }).error = none := by
  exact ⟨rfl, rfl⟩

/-- Claim C8 (amended): an inbound message whose type is not one of the
enumerated message types does not crash the dispatch handler — it falls
through the switch and leaves the state unchanged — but it is silently
ignored, not reported as a protocol error. -/
theorem unknownType_ignored_no_crash (s : VCState) (msg : RawMsg)
    (h : knownType msg.type = false) :
    handleWebSocketMessage s msg = s := by
  simp only [knownType, Bool.or_eq_false_iff, beq_eq_false_iff_ne, ne_eq] at h
  obtain ⟨⟨⟨⟨⟨⟨h1, h2⟩, h3⟩, h4⟩, h5⟩, h6⟩, h7⟩ := h
  simp [handleWebSocketMessage, h1, h2, h3, h4, h5, h6, h7]

/-- Witness for claim C8: the handler leaves a concrete state unchanged
on a concrete unrecognized type. -/
theorem unknownType_ignored_no_crash_witness :
    handleWebSocketMessage s10 { type := "heartbeat" } = s10 :=
  unknownType_ignored_no_crash s10 { type := "heartbeat" } (by decide)

/-- Counterexample to claim C6 as stated: muting while speech playback is
in progress leaves the playback running — the mute button merely toggles
the flag and never cancels the synthesizer, so the in-progress utterance
is not cancelled. -/
theorem muteToggle_keeps_playback_cx :
    (muteToggle { s0 with synthSpeaking := true }).isMuted = true
    ∧ (muteToggle { s0 with synthSpeaking := true }).synthSpeaking = true := by
  exact ⟨rfl, rfl⟩

/-- Claim C6 (amended): setting muted while speech is in progress does
not cancel the in-progress playback — the toggle changes only the muted
flag — and muting merely suppresses subsequent speak calls, which then
record their invocation but produce no audio and change nothing else. -/
theorem muteToggle_no_cancel (s : VCState) (t : String) :
    (muteToggle s).synthSpeaking = s.synthSpeaking
    ∧ (muteToggle s).isMuted = !s.isMuted
    ∧ speakText { s with isMuted := true } t
      = { s with isMuted := true, speakCalls := s.speakCalls ++ [t] } := by
  refine ⟨rfl, rfl, ?_⟩
  simp [speakText]

/-- Counterexample to claim C7 as stated: invoking startRecording while
recording is already active is not a no-op — it requests a second
microphone device handle (the acquisition count rises to 2), replaces
the current recorder and stream, and leaves the first stream's tracks
live. -/
theorem startRecording_second_handle_cx :
    (startRecording true s7).micAcquisitions = 2
    ∧ (startRecording true s7).stream = some { id := 1 }
    ∧ (startRecording true s7).mediaRecorder = some { state := RecState.recording, chunks := [] }
    ∧ (startRecording true s7).liveStreamIds = [0, 1] := by
  exact ⟨rfl, rfl, rfl, rfl⟩

/-- Claim C7 (amended): startRecording performs no already-recording
check: from every state, recording included, a granted start requests
another microphone handle, replaces the recorder and the stream refs,
restarts recording, and leaves any previously live stream's tracks
running. -/
theorem startRecording_no_guard (s : VCState) :
    (startRecording true s).micAcquisitions = s.micAcquisitions + 1
    ∧ (startRecording true s).stream = some { id := s.nextStreamId }
    ∧ (startRecording true s).mediaRecorder = some { state := RecState.recording, chunks := [] }
    ∧ (startRecording true s).isRecording = true
    ∧ (startRecording true s).liveStreamIds = s.liveStreamIds ++ [s.nextStreamId] := by
  exact ⟨rfl, rfl, rfl, rfl, rfl⟩

/-- Claim C1 evaluated at the failing input (a session_ended message
arrives at state s1c, where capture is active and speech is playing): the session_ended handler
only sets the view to summary — recording stays active, the microphone
track stays live and speech playback keeps running — whereas a local
endSession at the same state releases the capture resources and cancels
playback.  The code therefore does not perform the cleanup the claim
(and the spec) require of a channel-originated transition to summary. -/
theorem sessionEnded_no_cleanup_eval :
    (handleWebSocketMessage s1c { type := "session_ended" }).view = View.summary
    ∧ (handleWebSocketMessage s1c { type := "session_ended" }).isRecording = true
    ∧ (handleWebSocketMessage s1c { type := "session_ended" }).synthSpeaking = true
    ∧ (handleWebSocketMessage s1c { type := "session_ended" }).mediaRecorder
        = some { state := RecState.recording, chunks := ["q"] }
    ∧ (handleWebSocketMessage s1c { type := "session_ended" }).liveStreamIds = [0]
    ∧ captureReleased ((endSession s1c).fst) = true
    ∧ ((endSession s1c).fst).synthSpeaking = false
    ∧ ((endSession s1c).fst).view = View.summary := by
  decide

/-- Counterexample to claim C5 as stated: with the channel closed, the
audio flush discards its chunk and sendTextMessage drops the typed text
from the wire (while still appending it to the local transcript), and
neither operation reports any failure — the error field stays none and
no exception is raised.  The data is dropped invisibly, contradicting
the claim that a non-open channel makes the send report a failure. -/
theorem send_closed_drops_silently_cx :
    runFlushes s5 = { s5 with pendingFlushes := [] }
    ∧ (runFlushes s5).error = none
    ∧ wsSentList (runFlushes s5) = []
    ∧ (sendTextMessage s5).snd = none
    ∧ wsSentList (sendTextMessage s5).fst = []
    ∧ (sendTextMessage s5).fst.error = none
    ∧ (sendTextMessage s5).fst.transcripts
        = [{ role := Role.user, text := some "hello", isTemp := false }] := by
  decide

/-- Claim C5 (amended): when the channel is not open (closing or closed),
outbound sends drop their data invisibly instead of reporting a failure:
the capture-stop flush discards the audio chunk and changes nothing, and
sendTextMessage raises no exception, leaves the error state untouched,
puts nothing on the wire, yet still appends the message to the local
transcript. -/
theorem send_closed_drops_silently (s : VCState) (ch : Channel)
    (hws : s.ws = some ch)
    (hcl : ch.readyState = ReadyState.closing ∨ ch.readyState = ReadyState.closed)
    (hne : jsTrim s.textInput ≠ "") :
    runFlushes s = { s with pendingFlushes := [] }
    ∧ (sendTextMessage s).snd = none
    ∧ (sendTextMessage s).fst.ws = some ch
    ∧ (sendTextMessage s).fst.error = s.error
    ∧ (sendTextMessage s).fst.transcripts
        = s.transcripts ++ [{ role := Role.user, text := some s.textInput, isTemp := false }] := by
  have hno : channelNotOpen s = true := by
    rcases hcl with h | h <;> simp [channelNotOpen, hws, h]
  refine ⟨runFlushes_not_open s hno, ?_⟩
  have hsend : wsSendE ch (OutMsg.textOut s.textInput) = Except.ok ch := by
    rcases hcl with h | h <;> simp [wsSendE, h]
  simp [sendTextMessage, hne, hws, hsend]

/-- Witness for claim C5, applying it at the concrete counterexample
state (channel closed, one pending chunk, text "hello" typed). -/
theorem send_closed_drops_silently_witness :
    runFlushes s5 = { s5 with pendingFlushes := [] }
    ∧ (sendTextMessage s5).snd = none
    ∧ (sendTextMessage s5).fst.error = none
    ∧ (sendTextMessage s5).fst.transcripts
        = [{ role := Role.user, text := some "hello", isTemp := false }] := by
  have h := send_closed_drops_silently s5 { readyState := ReadyState.closed, sent := [] }
    rfl (Or.inr rfl) (by decide)
  exact ⟨h.1, h.2.1, h.2.2.2.1, h.2.2.2.2⟩

/-- Claim C9: a start-mission attempt with no mission selected is
rejected client-side — the disabled button means no handler runs, so no
network request is issued and the state is unchanged — and every attempt
with a mission selected issues exactly one session-creation request
whose payload carries the selected mission id, the selected language
name, the selected mode, and the fixed source language English,
unchanged. -/
theorem startMission_gate_and_payload (s : VCState) (o : CreateOutcome) :
    (s.selectedMission = none → startMissionClick o s = s)
    ∧ (∀ m : Mission, s.selectedMission = some m →
        (startMissionClick o s).issuedRequests
          = s.issuedRequests
            ++ [{ mission_id := some m.id
                  language := s.selectedLanguage.name
                  from_language := "English"
                  mode := s.mode }]) := by
  constructor
  · intro h
    simp [startMissionClick, h]
  · intro m h
    cases o <;> simp [startMissionClick, h, startSession, sessionRequest]

/-- Witness for claim C9: with no mission selected the click changes
nothing and issues nothing, and with mission m1, Spanish and teacher
mode selected the one issued payload carries exactly those values. -/
theorem startMission_gate_and_payload_witness :
    startMissionClick (CreateOutcome.ok "s1") s0 = s0
    ∧ (startMissionClick (CreateOutcome.ok "s1") s9).issuedRequests
        = [{ mission_id := some "m1"
             language := "Spanish"
             from_language := "English"
             mode := "teacher" }] := by
  constructor
  · exact (startMission_gate_and_payload s0 (CreateOutcome.ok "s1")).1 rfl
  · have h := (startMission_gate_and_payload s9 (CreateOutcome.ok "s1")).2 { id := "m1" } rfl
    simpa [s9, s0] using h

/-- Claim C2: endSession is idempotent and safe from any session state —
a second immediate call reproduces the exact same end state — and
whenever the channel is past its connecting phase (which holds in every
state from which endSession is invocable, since the active view is
entered only once the channel is open), the call raises no exception,
cancels capture and playback, leaves the channel not open, and forces
the view to summary whether or not the channel's close handshake ever
completes. -/
theorem endSession_idempotent (s : VCState) :
    (endSession (endSession s).fst).fst = (endSession s).fst
    ∧ (channelNotConnecting s = true →
        (endSession s).snd = none
        ∧ ((endSession s).fst).view = View.summary
        ∧ ((endSession s).fst).isRecording = false
        ∧ ((endSession s).fst).synthSpeaking = false
        ∧ channelNotOpen ((endSession s).fst) = true
        ∧ (channelSettle true ((endSession s).fst)).view = View.summary
        ∧ (channelSettle false ((endSession s).fst)).view = View.summary) := by
  obtain ⟨v, sm, sl, mo, si, ic, ir, im, tr, er, ti, ws, mr, st, sp, pf, sc, ls, ns, ma, iq⟩ := s
  rcases mr with - | ⟨(_ | _), cks⟩ <;>
    rcases st with - | ⟨stid⟩ <;>
      rcases ws with - | ⟨(_ | _ | _ | _), sent⟩ <;>
        refine ⟨?_, ?_⟩ <;>
          simp [endSession, endSessionSteps, runEndSteps, execEndStepE, stopRecording,
                wsSendE, wsCloseCall, channelNotOpen, channelNotConnecting,
                channelSettle, List.filter_filter]

/-- Witness for claim C2 at a concrete active session: a second
endSession reproduces the end state of the first, which has capture
cancelled, playback cancelled, the channel no longer open and the view
forced to summary. -/
theorem endSession_idempotent_witness :
    (endSession (endSession s2w).fst).fst = (endSession s2w).fst
    ∧ ((endSession s2w).fst).view = View.summary
    ∧ ((endSession s2w).fst).isRecording = false
    ∧ ((endSession s2w).fst).synthSpeaking = false
    ∧ channelNotOpen ((endSession s2w).fst) = true := by
  have h := endSession_idempotent s2w
  have h2 := h.2 (by decide)
  exact ⟨h.1, h2.2.1, h2.2.2.1, h2.2.2.2.1, h2.2.2.2.2.1⟩

/-- Claim C3: endSession cancels capture and playback strictly before the
channel close is attempted (steps one and two of its defining statement
list precede the close step), releases the microphone and the speaker
unconditionally — also when the close handshake fails or hangs — and no
audio chunk is enqueued on the channel after closure begins: the pending
capture flush delivers nothing once endSession has run, and the steps
from the close onward add nothing to the channel's transmitted list. -/
theorem endSession_cancel_before_close (s : VCState) (b : Bool) :
    endSession s = runEndSteps s endSessionSteps
    ∧ List.indexOf EndStep.stopCapture endSessionSteps
        < List.indexOf EndStep.closeChannel endSessionSteps
    ∧ List.indexOf EndStep.cancelPlayback endSessionSteps
        < List.indexOf EndStep.closeChannel endSessionSteps
    ∧ captureReleased ((endSession s).fst) = true
    ∧ ((endSession s).fst).synthSpeaking = false
    ∧ captureReleased (channelSettle b ((endSession s).fst)) = true
    ∧ (channelSettle b ((endSession s).fst)).synthSpeaking = false
    ∧ channelNotOpen ((endSession s).fst) = true
    ∧ runFlushes ((endSession s).fst) = { ((endSession s).fst) with pendingFlushes := [] }
    ∧ wsSentList ((endSession s).fst)
        = wsSentList ((runEndSteps s (List.take 3 endSessionSteps)).fst) := by
  have hmain : captureReleased ((endSession s).fst) = true
      ∧ ((endSession s).fst).synthSpeaking = false
      ∧ channelNotOpen ((endSession s).fst) = true
      ∧ wsSentList ((endSession s).fst)
          = wsSentList ((runEndSteps s (List.take 3 endSessionSteps)).fst) := by
    obtain ⟨v, sm, sl, mo, si, ic, ir, im, tr, er, ti, ws, mr, st, sp, pf, sc, ls, ns, ma, iq⟩ := s
    rcases mr with - | ⟨(_ | _), cks⟩ <;>
      rcases st with - | ⟨stid⟩ <;>
        rcases ws with - | ⟨(_ | _ | _ | _), sent⟩ <;>
          simp [endSession, endSessionSteps, runEndSteps, execEndStepE, stopRecording,
                wsSendE, wsCloseCall, channelNotOpen, captureReleased, wsSentList,
                contains_filter_bne]
  obtain ⟨h1, h2, h3, h4⟩ := hmain
  have hpres := channelSettle_preserves b ((endSession s).fst)
  refine ⟨rfl, by decide, by decide, h1, h2, ?_, ?_, h3, runFlushes_not_open _ h3, h4⟩
  · rw [hpres.2.2.2, h1]
  · rw [hpres.2.1, h2]

end VoiceChat
